import Mathlib

/-
  Verification of the ticket lifecycle and seat inventory core of the
  node-event-management-system repository.

  The definitions below are a shallow embedding of the JavaScript source:
  src/services/ticketService.js (bookTicket, cancelTicket, checkInTicket),
  src/models/ticketModel.js (the two pre save hooks and the unique index on
  ticketNumber), src/models/eventModel.js (the Event record shape) and the
  qrCodeService file (generateQRCode, validateQRCode).  Times are modelled as
  integer milliseconds since the epoch, as in the JavaScript Date class.
  JSON.stringify and JSON.parse are modelled on the fragment of JSON the
  credential codec uses: flat objects whose keys and values are strings,
  without surrounding whitespace; surrogate pair escapes are not modelled
  because Lean characters are unicode scalar values.
-/

set_option maxHeartbeats 1000000

deriving instance DecidableEq for Except

namespace EMS

/-- Opening brace character, written by code point. -/
def lbraceC : Char := Char.ofNat 123

/-- Closing brace character, written by code point. -/
def rbraceC : Char := Char.ofNat 125

/-- Double quote character, written by code point. -/
def quoteC : Char := Char.ofNat 34

/-- Backslash character, written by code point. -/
def backslashC : Char := Char.ofNat 92

/-- Lower case hex digit character, as produced by the JSON unicode escape for
control characters. -/
def hexDigitChar (n : Nat) : Char :=
  if n < 10 then Char.ofNat (48 + n) else Char.ofNat (87 + n)

/-- Numeric value of a hex digit accepted inside a JSON unicode escape. -/
def hexVal (c : Char) : Option Nat :=
  if 48 ≤ c.toNat ∧ c.toNat ≤ 57 then some (c.toNat - 48)
  else if 97 ≤ c.toNat ∧ c.toNat ≤ 102 then some (c.toNat - 87)
  else if 65 ≤ c.toNat ∧ c.toNat ≤ 70 then some (c.toNat - 55)
  else none

/-- JSON string escaping as performed by JSON.stringify on one character:
quote and backslash get two character escapes, the shorthand control
characters get their shorthand escapes, every other control character gets a
unicode escape, and all remaining characters are emitted verbatim. -/
def escapeChar (c : Char) : List Char :=
  if c = quoteC then [backslashC, quoteC]
  else if c = backslashC then [backslashC, backslashC]
  else if c = Char.ofNat 8 then [backslashC, 'b']
  else if c = Char.ofNat 9 then [backslashC, 't']
  else if c = Char.ofNat 10 then [backslashC, 'n']
  else if c = Char.ofNat 12 then [backslashC, 'f']
  else if c = Char.ofNat 13 then [backslashC, 'r']
  else if c.toNat < 32 then
    [backslashC, 'u', '0', '0', hexDigitChar (c.toNat / 16), hexDigitChar (c.toNat % 16)]
  else [c]

/-- JSON string escaping over a list of characters. -/
def escapeChars : List Char → List Char
  | [] => []
  | c :: cs => escapeChar c ++ escapeChars cs

/-- Decoding of one escape sequence accepted by JSON.parse, after the leading
backslash: returns the decoded character and the remaining input. -/
def unescapeChar (e : Char) : Option Char :=
  if e = quoteC then some quoteC
  else if e = backslashC then some backslashC
  else if e = '/' then some '/'
  else if e = 'b' then some (Char.ofNat 8)
  else if e = 'f' then some (Char.ofNat 12)
  else if e = 'n' then some (Char.ofNat 10)
  else if e = 'r' then some (Char.ofNat 13)
  else if e = 't' then some (Char.ofNat 9)
  else none

/-- Decoding of one escape sequence after a backslash, including the four hex
digit unicode escape form. -/
def decodeEscape : List Char → Option (Char × List Char)
  | [] => none
  | e :: cs2 =>
    if e = 'u' then
      match cs2 with
      | h1 :: h2 :: h3 :: h4 :: cs3 =>
        match hexVal h1, hexVal h2, hexVal h3, hexVal h4 with
        | some a, some b, some c, some d =>
          some (Char.ofNat (((a * 16 + b) * 16 + c) * 16 + d), cs3)
        | _, _, _, _ => none
      | _ => none
    else (unescapeChar e).map fun c => (c, cs2)

/-- JSON string body parser (the part after the opening quote), fuel indexed.
Accepts escapes, rejects unescaped control characters, stops at the closing
quote. -/
def parseStringBodyAux : Nat → List Char → Option (List Char × List Char)
  | 0, _ => none
  | fuel + 1, l =>
    match l with
    | [] => none
    | c :: cs =>
      if c = quoteC then some ([], cs)
      else if c = backslashC then
        match decodeEscape cs with
        | some dc => (parseStringBodyAux fuel dc.2).map fun p => (dc.1 :: p.1, p.2)
        | none => none
      else if c.toNat < 32 then none
      else (parseStringBodyAux fuel cs).map fun p => (c :: p.1, p.2)

/-- Parser for one member of a flat JSON object: a quoted key, a colon and a
quoted string value. -/
def parseMember (l : List Char) : Option ((List Char × List Char) × List Char) :=
  match l with
  | [] => none
  | c :: cs =>
    if c = quoteC then
      match parseStringBodyAux cs.length cs with
      | none => none
      | some kr =>
        match kr.2 with
        | c1 :: c2 :: rest2 =>
          if c1 = ':' ∧ c2 = quoteC then
            match parseStringBodyAux rest2.length rest2 with
            | none => none
            | some vr => some ((kr.1, vr.1), vr.2)
          else none
        | _ => none
    else none

/-- Parser for a comma separated nonempty member list terminated by a closing
brace, fuel indexed. -/
def parseMembersAux : Nat → List Char → Option (List (List Char × List Char) × List Char)
  | 0, _ => none
  | fuel + 1, l =>
    match parseMember l with
    | none => none
    | some kvr =>
      match kvr.2 with
      | [] => none
      | c :: rest2 =>
        if c = rbraceC then some ([kvr.1], rest2)
        else if c = ',' then
          (parseMembersAux fuel rest2).map fun p => (kvr.1 :: p.1, p.2)
        else none

/-- Model of JSON.parse restricted to the fragment used by the credential
codec: a flat object whose values are strings, with no surrounding
whitespace.  Inputs outside this fragment are rejected. -/
def jsonParseFlat (s : String) : Option (List (String × String)) :=
  match s.data with
  | [] => none
  | c :: cs =>
    if c = lbraceC then
      if cs = [rbraceC] then some []
      else
        match parseMembersAux (cs.length + 1) cs with
        | some kvr => if kvr.2 = [] then
            some (kvr.1.map fun kv => (String.mk kv.1, String.mk kv.2))
          else none
        | none => none
    else none

/-- JSON.stringify of one string, over character lists. -/
def encodeString (s : List Char) : List Char := quoteC :: (escapeChars s ++ [quoteC])

/-- JSON.stringify of one object member, over character lists. -/
def encodeMember (kv : List Char × List Char) : List Char :=
  encodeString kv.1 ++ ':' :: encodeString kv.2

/-- JSON.stringify of a comma separated member list, over character lists. -/
def encodeMembers : List (List Char × List Char) → List Char
  | [] => []
  | [kv] => encodeMember kv
  | kv :: kv2 :: t => encodeMember kv ++ ',' :: encodeMembers (kv2 :: t)

/-- JSON.stringify of a flat object, over character lists. -/
def encodeObject (kvs : List (List Char × List Char)) : List Char :=
  lbraceC :: (encodeMembers kvs ++ [rbraceC])

/-- JSON.stringify of a flat object with string keys and values, returning a
string, mirroring the call JSON.stringify applied to the qrData object in
bookTicket. -/
def encodeFlatObject (kvs : List (String × String)) : String :=
  String.mk (encodeObject (kvs.map fun kv => (kv.1.data, kv.2.data)))

/-- JavaScript property read on a parsed flat object: the first binding of the
key, none when the property is absent. -/
def jsGet (obj : List (String × String)) (k : String) : Option String :=
  (obj.find? fun kv => kv.1 == k).map fun kv => kv.2

/-- Decimal digit list of a natural number, fuel indexed so that it reduces
inside the kernel; one unit of fuel is consumed per digit. -/
def natDigitsAux : Nat → Nat → List Char
  | 0, _ => []
  | fuel + 1, n =>
    if n < 10 then [Char.ofNat (48 + n)]
    else natDigitsAux fuel (n / 10) ++ [Char.ofNat (48 + n % 10)]

/-- Decimal digit list of a natural number, mirroring the JavaScript
Number toString method in base ten. -/
def natDigits (n : Nat) : List Char := natDigitsAux (n + 1) n

/-- Decimal rendering of a natural number as a string. -/
def jsNatToString (n : Nat) : String := String.mk (natDigits n)

/-- The padStart method of JavaScript strings, with a one character pad. -/
def padStartStr (s : String) (len : Nat) (c : Char) : String :=
  String.mk (List.replicate (len - s.data.length) c ++ s.data)

/-- The date prefix computed in the ticket number pre save hook of
src/models/ticketModel.js line 144: the first ten characters of toISOString
with the dashes removed, given the UTC year, month and day of the current
time. -/
def dateYYYYMMDD (y m d : Nat) : String :=
  padStartStr (jsNatToString y) 4 '0' ++ padStartStr (jsNatToString m) 2 '0'
    ++ padStartStr (jsNatToString d) 2 '0'

/-- One candidate ticket number, src/models/ticketModel.js lines 145 and 146:
the EVT prefix, the date, and the five digit zero padded random suffix. -/
def mkTicketNumber (dateStr : String) (r : Nat) : String :=
  "EVT-" ++ dateStr ++ "-" ++ padStartStr (jsNatToString r) 5 '0'

/-- Embedding of the ticket number pre save hook, src/models/ticketModel.js
lines 141 to 157: generate a candidate from the first random draw, look the
candidate up among the existing ticket numbers, and on a collision regenerate
once from the second draw with no further check. -/
def generateTicketNumber (existing : List String) (dateStr : String) (r1 r2 : Nat) : String :=
  if mkTicketNumber dateStr r1 ∈ existing then mkTicketNumber dateStr r2
  else mkTicketNumber dateStr r1

/-- Embedding of the unique index on ticketNumber declared in
src/models/ticketModel.js lines 5 to 9: inserting a document whose
ticketNumber is already present fails with a duplicate key error and nothing
is persisted. -/
def insertTicketNumber (existing : List String) (tn : String) : Except String (List String) :=
  if tn ∈ existing then Except.error "E11000 duplicate key error" else Except.ok (tn :: existing)

/-- Embedding of the validUntil pre save hook, src/models/ticketModel.js lines
160 to 166: a new ticket with no validUntil and an event reference gets
validUntil set to the current time plus twenty four hours in milliseconds. -/
def defaultValidUntil (isNew : Bool) (validUntil : Option Int) (hasEvent : Bool)
    (now : Int) : Option Int :=
  if isNew && validUntil.isNone && hasEvent then some (now + 24 * 60 * 60 * 1000)
  else validUntil

/-- Event status enumeration of src/models/eventModel.js lines 105 to 109. -/
inductive EventStatus
  | draft
  | published
  | cancelled
  | completed
deriving DecidableEq

/-- Capacity subdocument of src/models/eventModel.js lines 90 to 104. -/
structure Capacity where
  totalSeats : Int
  availableSeats : Int
  soldSeats : Int
deriving DecidableEq

/-- Start and end times of an event, src/models/eventModel.js lines 64 to 73,
in milliseconds since the epoch. -/
structure DateTimeRange where
  start : Int
  endTime : Int
deriving DecidableEq

/-- Early bird subdocument of src/models/eventModel.js lines 85 to 88; both
fields are optional in the schema. -/
structure EarlyBird where
  price : Option Int
  deadline : Option Int
deriving DecidableEq

/-- Pricing subdocument of src/models/eventModel.js lines 74 to 89. -/
structure EventPricing where
  ticketPrice : Int
  currency : String
  earlyBird : Option EarlyBird
deriving DecidableEq

/-- Event record, restricted to the fields the ticket lifecycle core reads or
writes.  The schema is declared with the timestamps option
(src/models/eventModel.js line 149), so Mongoose maintains an updatedAt field
and adds a set of updatedAt to every findByIdAndUpdate call; updatedAt is
therefore modelled explicitly.  The remaining schema fields (title, venue,
tags, views, createdAt and so on) are grouped into one opaque rest field so
that frame conditions about them are expressible. -/
structure Event where
  id : String
  organizer : String
  status : EventStatus
  dateTime : DateTimeRange
  pricing : EventPricing
  capacity : Capacity
  updatedAt : Int
  rest : String
deriving DecidableEq

/-- Ticket status enumeration of src/models/ticketModel.js lines 93 to 97. -/
inductive TicketStatus
  | active
  | used
  | cancelled
  | expired
deriving DecidableEq

/-- Payment status enumeration of src/models/ticketModel.js lines 81 to 85. -/
inductive PaymentStatus
  | pending
  | completed
  | failed
  | refunded
deriving DecidableEq

/-- Attendee info subdocument, src/models/ticketModel.js lines 20 to 44,
restricted to the three required fields. -/
structure AttendeeInfo where
  name : String
  email : String
  phone : String
deriving DecidableEq

/-- Seat info subdocument, src/models/ticketModel.js lines 45 to 52; the
source field named section is called sectionName here because section is a
keyword in Lean. -/
structure SeatInfo where
  seatNumber : String
  sectionName : String
  row : String
deriving DecidableEq

/-- Ticket pricing subdocument, src/models/ticketModel.js lines 53 to 73. -/
structure TicketPricing where
  originalPrice : Int
  finalPrice : Int
  discount : Int
  currency : String
deriving DecidableEq

/-- Payment subdocument, src/models/ticketModel.js lines 74 to 88. -/
structure Payment where
  paymentMethod : String
  transactionId : Option String
  paymentStatus : PaymentStatus
  paidAt : Option Int
  refundedAt : Option Int
deriving DecidableEq

/-- Check in subdocument, src/models/ticketModel.js lines 98 to 109. -/
structure CheckInRec where
  isCheckedIn : Bool
  checkedInAt : Option Int
  checkedInBy : Option String
  gate : Option String
deriving DecidableEq

/-- QR code subdocument, src/models/ticketModel.js lines 89 to 92. -/
structure QRCodeRec where
  data : String
  image : String
deriving DecidableEq

/-- Ticket record of src/models/ticketModel.js; the metadata subdocument is
omitted because no claim mentions it. -/
structure Ticket where
  id : String
  ticketNumber : String
  event : String
  user : String
  attendeeInfo : AttendeeInfo
  seatInfo : SeatInfo
  pricing : TicketPricing
  payment : Payment
  qrCode : Option QRCodeRec
  status : TicketStatus
  checkIn : CheckInRec
  purchaseDate : Int
  validUntil : Option Int
deriving DecidableEq

/-- Authenticated actor as supplied by the auth middleware: the fields of the
user document that ticketService reads. -/
structure UserRec where
  id : String
  name : String
  email : String
  phone : String
  role : String
deriving DecidableEq

/-- The error responses produced by ticketService through ApiError, one
constructor per distinct message.  The spec taxonomy names map as follows:
EventNotBookableError covers eventNotBookable and pastEvent, SoldOutError is
soldOut, SeatTakenError is seatTaken, MalformedCredentialError is
malformedCredential, TicketNotFoundError is ticketNotFound,
TicketNotActiveError is ticketNotActive, AlreadyCheckedInError is
alreadyCheckedIn, EventNotActiveError is eventNotActive, ForbiddenError is
forbidden, InvalidTransitionError is onlyActiveCancellable,
CancellationWindowClosedError is windowClosed.  internalError stands for an
exception thrown when a populated event reference is missing. -/
inductive ApiErr
  | eventNotFound
  | eventNotBookable
  | soldOut
  | pastEvent
  | seatTaken
  | duplicateTicketNumber
  | ticketNotFound
  | forbidden
  | onlyActiveCancellable
  | windowClosed
  | malformedCredential
  | ticketNotActive
  | alreadyCheckedIn
  | eventNotActive
  | internalError
deriving DecidableEq

/-- The user facing message each error constructor corresponds to in
src/services/ticketService.js. -/
def ApiErr.message : ApiErr → String
  | .eventNotFound => "Event not found"
  | .eventNotBookable => "Event is not available for booking"
  | .soldOut => "No seats available"
  | .pastEvent => "Cannot book tickets for past events"
  | .seatTaken => "This seat is already booked"
  | .duplicateTicketNumber => "E11000 duplicate key error"
  | .ticketNotFound => "Ticket not found"
  | .forbidden => "You can only cancel your own tickets"
  | .onlyActiveCancellable => "Only active tickets can be cancelled"
  | .windowClosed => "Cannot cancel tickets within 24 hours of event"
  | .malformedCredential => "Invalid QR code data"
  | .ticketNotActive => "This ticket is not valid for entry"
  | .alreadyCheckedIn => "This ticket has already been used"
  | .eventNotActive => "Event is not active"
  | .internalError => "Internal server error"

/-- The spec class EventNotBookableError: event not in published status, or
booking attempted after the start time. -/
def isEventNotBookableError (e : ApiErr) : Prop :=
  e = ApiErr.eventNotBookable ∨ e = ApiErr.pastEvent

/-- Mongoose findById over the ticket collection. -/
def findTicket (l : List Ticket) (i : String) : Option Ticket :=
  l.find? fun t => t.id == i

/-- Mongoose findById over the event collection. -/
def findEvent (l : List Event) (i : String) : Option Event :=
  l.find? fun e => e.id == i

/-- JavaScript truthiness defaulting on an optional string, as in the
expressions gate or Main Gate and section or General: an absent value and the
empty string both fall back to the default. -/
def jsOrString (o : Option String) (d : String) : String :=
  match o with
  | none => d
  | some s => if s = "" then d else s

/-- Environment inputs of one bookTicket call that the JavaScript runtime
draws implicitly: the current time, its UTC calendar components, the two
random suffix draws of the ticket number hook, and the object id MongoDB
assigns to the new ticket. -/
structure BookEnv where
  now : Int
  utcY : Nat
  utcM : Nat
  utcD : Nat
  r1 : Nat
  r2 : Nat
  newTicketId : String
deriving DecidableEq

/-- The qrData payload built in bookTicket, src/services/ticketService.js
lines 170 to 176. -/
structure QRPayload where
  ticketId : String
  ticketNumber : String
  eventId : String
  seatNumber : String
  attendeeName : String
deriving DecidableEq

/-- The member list of the qrData object, in the insertion order of
src/services/ticketService.js lines 170 to 176. -/
def qrMembers (p : QRPayload) : List (String × String) :=
  [("ticketId", p.ticketId), ("ticketNumber", p.ticketNumber), ("eventId", p.eventId),
   ("seatNumber", p.seatNumber), ("attendeeName", p.attendeeName)]

/-- JSON.stringify of the qrData payload as stored in the qrCode data field. -/
def stringifyQRData (p : QRPayload) : String := encodeFlatObject (qrMembers p)

/-- Result of validateQRCode in the qrCodeService file. -/
inductive QRResult
  | invalid (error : String)
  | validData (data : List (String × String))
deriving DecidableEq

/-- The required field list of validateQRCode. -/
def requiredQRFields : List String := ["ticketId", "eventId", "ticketNumber"]

/-- JavaScript truthiness of a property read used by validateQRCode: a missing
field and an empty string are both falsy. -/
def truthyField (obj : List (String × String)) (f : String) : Bool :=
  match jsGet obj f with
  | some v => v != ""
  | none => false

/-- Embedding of validateQRCode, qrCodeService lines 89 to 115: parse the
presented string, reject missing required fields, otherwise return the parsed
payload. -/
def validateQRCode (qrData : String) : QRResult :=
  match jsonParseFlat qrData with
  | none => QRResult.invalid "Invalid QR code format"
  | some parsedData =>
    let missingFields := requiredQRFields.filter fun f => !(truthyField parsedData f)
    if missingFields = [] then QRResult.validData parsedData
    else QRResult.invalid ("Missing required fields: " ++ String.intercalate ", " missingFields)

/-- Early bird price resolution of bookTicket, src/services/ticketService.js
lines 122 to 132: the early bird price applies when the subdocument exists,
its deadline is in the future and its price is truthy; the result is the
final price and the discount. -/
def resolvePrice (pricing : EventPricing) (now : Int) : Int × Int :=
  match pricing.earlyBird with
  | some eb =>
    match eb.deadline, eb.price with
    | some dl, some p =>
      if now < dl ∧ p ≠ 0 then (p, pricing.ticketPrice - p) else (pricing.ticketPrice, 0)
    | _, _ => (pricing.ticketPrice, 0)
  | none => (pricing.ticketPrice, 0)

/-- Embedding of bookTicket, src/services/ticketService.js lines 90 to 202.
The checks run in source order: event existence, published status, seat
availability, start time in the future, seat uniqueness among active and used
tickets; then pricing, ticket creation through the two pre save hooks, QR
credential issuance, and the seat counter update on the event.  The unique
index on ticketNumber rejects a persistent collision at insert time.  The
seat counter update is a findByIdAndUpdate, to which the timestamps option
adds a write of the updatedAt field.  On success the updated event and the
persisted ticket are returned. -/
def bookTicket (events : List Event) (tickets : List Ticket) (user : UserRec)
    (eventId seatNumber : String) (attendeeInfo : Option AttendeeInfo)
    (paymentMethod : String) (sectionOpt row : Option String) (env : BookEnv) :
    Except ApiErr (Event × Ticket) :=
  match findEvent events eventId with
  | none => Except.error ApiErr.eventNotFound
  | some event =>
    if event.status ≠ EventStatus.published then Except.error ApiErr.eventNotBookable
    else if event.capacity.availableSeats ≤ 0 then Except.error ApiErr.soldOut
    else if event.dateTime.start < env.now then Except.error ApiErr.pastEvent
    else if tickets.any fun t =>
        t.event == eventId && t.seatInfo.seatNumber == seatNumber
          && (t.status == TicketStatus.active || t.status == TicketStatus.used) then
      Except.error ApiErr.seatTaken
    else
      let fp := resolvePrice event.pricing env.now
      let att := match attendeeInfo with
        | some a => a
        | none => { name := user.name, email := user.email, phone := user.phone }
      let dateStr := dateYYYYMMDD env.utcY env.utcM env.utcD
      let existingNumbers := tickets.map fun t => t.ticketNumber
      let tn := generateTicketNumber existingNumbers dateStr env.r1 env.r2
      if tn ∈ existingNumbers then Except.error ApiErr.duplicateTicketNumber
      else
        let payload : QRPayload :=
          { ticketId := env.newTicketId, ticketNumber := tn, eventId := event.id,
            seatNumber := seatNumber, attendeeName := att.name }
        let ticket : Ticket :=
          { id := env.newTicketId
            ticketNumber := tn
            event := eventId
            user := user.id
            attendeeInfo := att
            seatInfo := { seatNumber := seatNumber,
                          sectionName := jsOrString sectionOpt "General",
                          row := jsOrString row "A" }
            pricing := { originalPrice := event.pricing.ticketPrice, finalPrice := fp.1,
                         discount := fp.2, currency := event.pricing.currency }
            payment := { paymentMethod := paymentMethod
                         transactionId := if paymentMethod ≠ "cash"
                           then some ("TXN-" ++ toString env.now) else none
                         paymentStatus := if paymentMethod = "cash"
                           then PaymentStatus.pending else PaymentStatus.completed
                         paidAt := if paymentMethod ≠ "cash" then some env.now else none
                         refundedAt := none }
            qrCode := some { data := stringifyQRData payload, image := tn ++ ".png" }
            status := TicketStatus.active
            checkIn := { isCheckedIn := false, checkedInAt := none, checkedInBy := none,
                         gate := none }
            purchaseDate := env.now
            validUntil := defaultValidUntil true none true env.now }
        let event' : Event :=
          { event with
            capacity :=
              { event.capacity with
                soldSeats := event.capacity.soldSeats + 1
                availableSeats := event.capacity.availableSeats - 1 },
            updatedAt := env.now }
        Except.ok (event', ticket)

/-- Embedding of cancelTicket, src/services/ticketService.js lines 207 to 245.
The checks run in source order: ticket existence, ownership, active status,
and the twenty four hour window before the event start; then the ticket is
cancelled with the payment refunded and the seat counters are reversed
through a findByIdAndUpdate, to which the timestamps option adds a write of
the updatedAt field. -/
def cancelTicket (events : List Event) (tickets : List Ticket) (ticketId : String)
    (actor : UserRec) (now : Int) : Except ApiErr (Event × Ticket) :=
  match findTicket tickets ticketId with
  | none => Except.error ApiErr.ticketNotFound
  | some t =>
    if t.user ≠ actor.id ∧ actor.role ≠ "admin" then Except.error ApiErr.forbidden
    else if t.status ≠ TicketStatus.active then Except.error ApiErr.onlyActiveCancellable
    else
      match findEvent events t.event with
      | none => Except.error ApiErr.internalError
      | some ev =>
        if ev.dateTime.start - now < 24 * (1000 * 60 * 60) then
          Except.error ApiErr.windowClosed
        else
          let t' : Ticket :=
            { t with
              status := TicketStatus.cancelled,
              payment := { t.payment with
                           paymentStatus := PaymentStatus.refunded,
                           refundedAt := some now } }
          let ev' : Event :=
            { ev with
              capacity :=
                { ev.capacity with
                  soldSeats := ev.capacity.soldSeats - 1
                  availableSeats := ev.capacity.availableSeats + 1 },
              updatedAt := now }
          Except.ok (ev', t')

/-- The ticket mutation performed by a successful check in,
src/services/ticketService.js lines 280 to 289: the status becomes used and
the check in metadata is stamped, with the gate defaulting to Main Gate
through JavaScript truthiness. -/
def checkedInTicket (t : Ticket) (gate : Option String) (actorId : String)
    (now : Int) : Ticket :=
  { t with
    status := TicketStatus.used,
    checkIn := { isCheckedIn := true, checkedInAt := some now,
                 checkedInBy := some actorId,
                 gate := some (jsOrString gate "Main Gate") } }

/-- Embedding of checkInTicket, src/services/ticketService.js lines 250 to
302.  JSON.parse failure is the only credential validation: a parsed payload
is only used through its ticketId property.  The guards run in source order:
ticket existence, active status, the already checked in flag, and the
published status of the event; on success the ticket becomes used and the
check in metadata is stamped, with the gate defaulting to Main Gate. -/
def checkInTicket (events : List Event) (tickets : List Ticket) (qrData : String)
    (gate : Option String) (actorId : String) (now : Int) : Except ApiErr Ticket :=
  match jsonParseFlat qrData with
  | none => Except.error ApiErr.malformedCredential
  | some ticketInfo =>
    match jsGet ticketInfo "ticketId" with
    | none => Except.error ApiErr.ticketNotFound
    | some tid =>
      match findTicket tickets tid with
      | none => Except.error ApiErr.ticketNotFound
      | some ticket =>
        if ticket.status ≠ TicketStatus.active then Except.error ApiErr.ticketNotActive
        else if ticket.checkIn.isCheckedIn then Except.error ApiErr.alreadyCheckedIn
        else
          match findEvent events ticket.event with
          | none => Except.error ApiErr.internalError
          | some ev =>
            if ev.status ≠ EventStatus.published then Except.error ApiErr.eventNotActive
            else Except.ok (checkedInTicket ticket gate actorId now)

/-- The persistent store: the event and ticket collections. -/
structure Store where
  events : List Event
  tickets : List Ticket
deriving DecidableEq

/-- Persistence of a mutated ticket document, replacing the stored document
with the same id. -/
def replaceTicket (l : List Ticket) (t' : Ticket) : List Ticket :=
  l.map fun x => if x.id = t'.id then t' else x

/-- Persistence of a mutated event document, replacing the stored document
with the same id. -/
def replaceEvent (l : List Event) (e' : Event) : List Event :=
  l.map fun x => if x.id = e'.id then e' else x

/-- checkInTicket at the store level: an error leaves the store unchanged, a
success persists the mutated ticket. -/
def checkInStore (st : Store) (qrData : String) (gate : Option String) (actorId : String)
    (now : Int) : Store × Option ApiErr :=
  match checkInTicket st.events st.tickets qrData gate actorId now with
  | Except.error e => (st, some e)
  | Except.ok t' => ({ st with tickets := replaceTicket st.tickets t' }, none)

/-- cancelTicket at the store level: an error leaves the store unchanged, a
success persists the mutated ticket and the reversed seat counters. -/
def cancelTicketStore (st : Store) (ticketId : String) (actor : UserRec) (now : Int) :
    Store × Option ApiErr :=
  match cancelTicket st.events st.tickets ticketId actor now with
  | Except.error e => (st, some e)
  | Except.ok et =>
    ({ events := replaceEvent st.events et.1, tickets := replaceTicket st.tickets et.2 },
     none)

/-- A concrete published event used to evaluate the operations: ten seats,
five sold, start at two hundred billion milliseconds. -/
def evA : Event :=
  { id := "e1", organizer := "org", status := EventStatus.published,
    dateTime := { start := 200000000000, endTime := 200003600000 },
    pricing := { ticketPrice := 100, currency := "EGP", earlyBird := none },
    capacity := { totalSeats := 10, availableSeats := 5, soldSeats := 5 },
    updatedAt := 1, rest := "r" }

/-- A concrete published event that is sold out and whose start time is in the
past relative to the booking environment below. -/
def evSoldOutPast : Event :=
  { id := "e1", organizer := "org", status := EventStatus.published,
    dateTime := { start := 50, endTime := 60 },
    pricing := { ticketPrice := 100, currency := "EGP", earlyBird := none },
    capacity := { totalSeats := 5, availableSeats := 0, soldSeats := 5 },
    updatedAt := 1, rest := "r" }

/-- A concrete requesting user. -/
def userA : UserRec :=
  { id := "u1", name := "Bob", email := "bob@example.com", phone := "1", role := "user" }

/-- A concrete booking environment: the current time is one hundred billion
milliseconds, before the start of evA. -/
def envA : BookEnv :=
  { now := 100000000000, utcY := 2025, utcM := 10, utcD := 11, r1 := 42, r2 := 7,
    newTicketId := "t1" }

/-- A concrete active, not yet checked in ticket of userA on evA. -/
def ticketA : Ticket :=
  { id := "t1", ticketNumber := "EVT-20251011-00042", event := "e1", user := "u1",
    attendeeInfo := { name := "Bob", email := "bob@example.com", phone := "1" },
    seatInfo := { seatNumber := "A1", sectionName := "General", row := "A" },
    pricing := { originalPrice := 100, finalPrice := 100, discount := 0, currency := "EGP" },
    payment := { paymentMethod := "card", transactionId := none,
                 paymentStatus := PaymentStatus.completed, paidAt := some 1,
                 refundedAt := none },
    qrCode := none, status := TicketStatus.active,
    checkIn := { isCheckedIn := false, checkedInAt := none, checkedInBy := none,
                 gate := none },
    purchaseDate := 1, validUntil := none }

/-- The store holding evA and ticketA. -/
def storeA : Store := { events := [evA], tickets := [ticketA] }

/-- A concrete credential string holding only the ticketId property of
ticketA, as JSON text. -/
def credA : String := "\x7b\"ticketId\":\"t1\"\x7d"

/-- The event and ticket produced by a successful concrete booking on evA. -/
def bookedPairA : Event × Ticket :=
  match bookTicket [evA] [] userA "e1" "A1" none "card" none none envA with
  | Except.ok p => p
  | Except.error _ => (evA, ticketA)

/-- The event and ticket produced by a successful concrete cancellation of
ticketA on evA. -/
def cancelledPairA : Event × Ticket :=
  match cancelTicket [evA] [ticketA] "t1" userA 100000000000 with
  | Except.ok p => p
  | Except.error _ => (evA, ticketA)

theorem hexVal_hexDigitChar (n : Nat) (h : n < 16) : hexVal (hexDigitChar n) = some n := by
  interval_cases n <;> decide

theorem parseStringBodyAux_cons_esc (f : Nat) (x c : Char) (tail : List Char)
    (hx : x ≠ 'u') (hux : unescapeChar x = some c) :
    parseStringBodyAux (f + 1) (backslashC :: x :: tail)
      = (parseStringBodyAux f tail).map fun p => (c :: p.1, p.2) := by
  simp +decide [parseStringBodyAux, decodeEscape, hx, hux]

theorem parseStringBodyAux_cons_u (f : Nat) (c : Char) (tail : List Char)
    (h32 : c.toNat < 32) :
    parseStringBodyAux (f + 1)
        (backslashC :: 'u' :: '0' :: '0' :: hexDigitChar (c.toNat / 16)
          :: hexDigitChar (c.toNat % 16) :: tail)
      = (parseStringBodyAux f tail).map fun p => (c :: p.1, p.2) := by
  have hd : c.toNat / 16 < 16 := by omega
  have hm : c.toNat % 16 < 16 := by omega
  have e1 := hexVal_hexDigitChar _ hd
  have e2 := hexVal_hexDigitChar _ hm
  have h0 : hexVal '0' = some 0 := by decide
  simp +decide [parseStringBodyAux, decodeEscape, e1, e2, h0]
  simp only [show c.toNat / 16 * 16 + c.toNat % 16 = c.toNat by omega, Char.ofNat_toNat]

theorem parseStringBodyAux_cons_plain (f : Nat) (c : Char) (tail : List Char)
    (h1 : c ≠ quoteC) (h2 : c ≠ backslashC) (h3 : ¬ c.toNat < 32) :
    parseStringBodyAux (f + 1) (c :: tail)
      = (parseStringBodyAux f tail).map fun p => (c :: p.1, p.2) := by
  simp [parseStringBodyAux, h1, h2, h3]

theorem parseStringBodyAux_escape (s : List Char) : ∀ (fuel : Nat) (rest : List Char),
    (escapeChars s).length < fuel →
    parseStringBodyAux fuel (escapeChars s ++ quoteC :: rest) = some (s, rest) := by
  induction s with
  | nil =>
    intro fuel rest h
    simp only [escapeChars, List.length_nil, List.nil_append] at h ⊢
    cases fuel with
    | zero => omega
    | succ f => simp [parseStringBodyAux]
  | cons c cs ih =>
    intro fuel rest h
    simp only [escapeChars, List.length_append, List.append_assoc] at h ⊢
    cases fuel with
    | zero => omega
    | succ f =>
      by_cases h1 : c = quoteC
      · subst h1
        have he : escapeChar quoteC = [backslashC, quoteC] := by decide
        rw [he] at h ⊢
        simp only [List.length_cons, List.length_nil] at h
        rw [List.cons_append, List.cons_append, List.nil_append,
          parseStringBodyAux_cons_esc f quoteC quoteC _ (by decide) (by decide),
          ih f rest (by omega)]
        rfl
      · by_cases h2 : c = backslashC
        · subst h2
          have he : escapeChar backslashC = [backslashC, backslashC] := by decide
          rw [he] at h ⊢
          simp only [List.length_cons, List.length_nil] at h
          rw [List.cons_append, List.cons_append, List.nil_append,
            parseStringBodyAux_cons_esc f backslashC backslashC _ (by decide) (by decide),
            ih f rest (by omega)]
          rfl
        · by_cases h3 : c = Char.ofNat 8
          · subst h3
            have he : escapeChar (Char.ofNat 8) = [backslashC, 'b'] := by decide
            rw [he] at h ⊢
            simp only [List.length_cons, List.length_nil] at h
            rw [List.cons_append, List.cons_append, List.nil_append,
              parseStringBodyAux_cons_esc f 'b' (Char.ofNat 8) _ (by decide) (by decide),
              ih f rest (by omega)]
            rfl
          · by_cases h4 : c = Char.ofNat 9
            · subst h4
              have he : escapeChar (Char.ofNat 9) = [backslashC, 't'] := by decide
              rw [he] at h ⊢
              simp only [List.length_cons, List.length_nil] at h
              rw [List.cons_append, List.cons_append, List.nil_append,
                parseStringBodyAux_cons_esc f 't' (Char.ofNat 9) _ (by decide) (by decide),
                ih f rest (by omega)]
              rfl
            · by_cases h5 : c = Char.ofNat 10
              · subst h5
                have he : escapeChar (Char.ofNat 10) = [backslashC, 'n'] := by decide
                rw [he] at h ⊢
                simp only [List.length_cons, List.length_nil] at h
                rw [List.cons_append, List.cons_append, List.nil_append,
                  parseStringBodyAux_cons_esc f 'n' (Char.ofNat 10) _ (by decide) (by decide),
                  ih f rest (by omega)]
                rfl
              · by_cases h6 : c = Char.ofNat 12
                · subst h6
                  have he : escapeChar (Char.ofNat 12) = [backslashC, 'f'] := by decide
                  rw [he] at h ⊢
                  simp only [List.length_cons, List.length_nil] at h
                  rw [List.cons_append, List.cons_append, List.nil_append,
                    parseStringBodyAux_cons_esc f 'f' (Char.ofNat 12) _ (by decide) (by decide),
                    ih f rest (by omega)]
                  rfl
                · by_cases h7 : c = Char.ofNat 13
                  · subst h7
                    have he : escapeChar (Char.ofNat 13) = [backslashC, 'r'] := by decide
                    rw [he] at h ⊢
                    simp only [List.length_cons, List.length_nil] at h
                    rw [List.cons_append, List.cons_append, List.nil_append,
                      parseStringBodyAux_cons_esc f 'r' (Char.ofNat 13) _ (by decide) (by decide),
                      ih f rest (by omega)]
                    rfl
                  · by_cases h8 : c.toNat < 32
                    · have he : escapeChar c
                          = [backslashC, 'u', '0', '0', hexDigitChar (c.toNat / 16),
                             hexDigitChar (c.toNat % 16)] := by
                        rw [escapeChar]
                        simp [h1, h2, h3, h4, h5, h6, h7, h8]
                      rw [he] at h ⊢
                      simp only [List.length_cons, List.length_nil] at h
                      rw [List.cons_append, List.cons_append, List.cons_append,
                        List.cons_append, List.cons_append, List.cons_append,
                        List.nil_append,
                        parseStringBodyAux_cons_u f c _ h8,
                        ih f rest (by omega)]
                      rfl
                    · have he : escapeChar c = [c] := by
                        rw [escapeChar]
                        simp [h1, h2, h3, h4, h5, h6, h7, h8]
                      rw [he] at h ⊢
                      simp only [List.length_cons, List.length_nil] at h
                      rw [List.cons_append, List.nil_append,
                        parseStringBodyAux_cons_plain f c _ h1 h2 h8,
                        ih f rest (by omega)]
                      rfl


theorem parseMember_encode (k v rest : List Char) :
    parseMember (encodeMember (k, v) ++ rest) = some ((k, v), rest) := by
  have e1 : encodeMember (k, v) ++ rest
      = quoteC :: (escapeChars k
          ++ quoteC :: (':' :: quoteC :: (escapeChars v ++ quoteC :: rest))) := by
    simp [encodeMember, encodeString]
  rw [e1]
  simp only [parseMember, if_true]
  rw [parseStringBodyAux_escape k _ _
    (by simp only [List.length_append, List.length_cons]; omega)]
  simp only
  rw [if_pos (And.intro trivial trivial)]
  rw [parseStringBodyAux_escape v _ _
    (by simp only [List.length_append, List.length_cons]; omega)]

theorem encodeMember_length_pos (kv : List Char × List Char) :
    0 < (encodeMember kv).length := by
  obtain ⟨k, v⟩ := kv
  simp [encodeMember, encodeString]

theorem le_encodeMembers_length (kvs : List (List Char × List Char)) :
    kvs.length ≤ (encodeMembers kvs).length := by
  induction kvs with
  | nil => simp [encodeMembers]
  | cons kv t ih =>
    cases t with
    | nil =>
      simp only [encodeMembers, List.length_cons, List.length_nil]
      have := encodeMember_length_pos kv
      omega
    | cons kv2 t2 =>
      simp only [encodeMembers, List.length_cons, List.length_append] at ih ⊢
      have := encodeMember_length_pos kv
      omega

theorem parseMembersAux_encode (kvs : List (List Char × List Char)) :
    ∀ (rest : List Char) (fuel : Nat), kvs ≠ [] → kvs.length ≤ fuel →
    parseMembersAux fuel (encodeMembers kvs ++ rbraceC :: rest) = some (kvs, rest) := by
  induction kvs with
  | nil => intro rest fuel hne _; exact absurd rfl hne
  | cons kv t ih =>
    intro rest fuel _ hf
    cases fuel with
    | zero => simp at hf
    | succ f =>
      cases t with
      | nil =>
        obtain ⟨k, v⟩ := kv
        simp only [encodeMembers, parseMembersAux]
        rw [parseMember_encode k v (rbraceC :: rest)]
        simp only [if_true]
      | cons kv2 t2 =>
        obtain ⟨k, v⟩ := kv
        simp only [encodeMembers, List.append_assoc, List.cons_append, parseMembersAux]
        rw [show (encodeMember (k, v) ++ (',' :: (encodeMembers (kv2 :: t2) ++ rbraceC :: rest)))
            = encodeMember (k, v) ++ (',' :: (encodeMembers (kv2 :: t2) ++ rbraceC :: rest))
          from rfl]
        rw [parseMember_encode k v (',' :: (encodeMembers (kv2 :: t2) ++ rbraceC :: rest))]
        simp only [if_true, if_neg (show ¬ (',' = rbraceC) by decide)]
        rw [ih rest f (by simp) (by simp at hf ⊢; omega)]
        rfl


theorem data_mk (l : List Char) : (String.mk l).data = l := rfl

theorem jsonParseFlat_encode_shape (ms : List (List Char × List Char)) :
    jsonParseFlat (String.mk (lbraceC :: (encodeMembers ms ++ [rbraceC])))
      = (if encodeMembers ms ++ [rbraceC] = [rbraceC] then some []
         else
           match parseMembersAux ((encodeMembers ms ++ [rbraceC]).length + 1)
               (encodeMembers ms ++ [rbraceC]) with
           | some kvr => if kvr.2 = [] then
               some (kvr.1.map fun kv => (String.mk kv.1, String.mk kv.2))
             else none
           | none => none) := rfl

theorem jsonParseFlat_encodeFlatObject (kvs : List (String × String)) (h : kvs ≠ []) :
    jsonParseFlat (encodeFlatObject kvs) = some kvs := by
  have hmne : (kvs.map fun kv => (kv.1.data, kv.2.data)) ≠ [] := by
    intro he
    exact h (List.map_eq_nil_iff.mp he)
  have hle := le_encodeMembers_length (kvs.map fun kv => (kv.1.data, kv.2.data))
  have hne2 : ¬ (encodeMembers (kvs.map fun kv => (kv.1.data, kv.2.data)) ++ [rbraceC]
      = [rbraceC]) := by
    intro he
    have hlen := congrArg List.length he
    simp only [List.length_append, List.length_cons, List.length_nil] at hlen
    have hz : (kvs.map fun kv => (kv.1.data, kv.2.data)) = [] := by
      apply List.length_eq_zero.mp
      omega
    exact hmne hz
  rw [encodeFlatObject, encodeObject, jsonParseFlat_encode_shape, if_neg hne2,
    parseMembersAux_encode _ [] _ hmne ?hfuel]
  case hfuel =>
    simp only [List.length_append, List.length_cons, List.length_nil, List.length_map] at hle ⊢
    omega
  simp only [if_pos rfl]
  rw [List.map_map]
  have hcomp : ((fun kv : List Char × List Char => (String.mk kv.1, String.mk kv.2))
      ∘ fun kv : String × String => (kv.1.data, kv.2.data)) = id := by
    funext kv
    rfl
  rw [hcomp, List.map_id]
  exact if_pos trivial

theorem jsonParseFlat_stringifyQRData (p : QRPayload) :
    jsonParseFlat (stringifyQRData p) = some (qrMembers p) := by
  apply jsonParseFlat_encodeFlatObject
  simp [qrMembers]

theorem natDigitsAux_length_le (fuel : Nat) : ∀ n k : Nat, n < 10 ^ k → 1 ≤ k →
    (natDigitsAux fuel n).length ≤ k := by
  induction fuel with
  | zero =>
    intro n k _ _
    simp [natDigitsAux]
  | succ fuel ih =>
    intro n k hn hk
    rw [natDigitsAux]
    by_cases h : n < 10
    · rw [if_pos h]
      simpa using hk
    · rw [if_neg h]
      simp only [List.length_append, List.length_cons, List.length_nil]
      have hk2 : 2 ≤ k := by
        by_contra hlt
        have hk1 : k = 1 := by omega
        subst hk1
        rw [pow_one] at hn
        omega
      have hpow : (10 : Nat) ^ (k - 1) * 10 = 10 ^ k := by
        rw [← pow_succ]
        congr 1
        omega
      have hdiv : n / 10 < 10 ^ (k - 1) := by
        rw [Nat.div_lt_iff_lt_mul (by omega), hpow]
        exact hn
      have := ih (n / 10) (k - 1) hdiv (by omega)
      omega

theorem natDigits_length_le (k n : Nat) (hn : n < 10 ^ k) (hk : 1 ≤ k) :
    (natDigits n).length ≤ k :=
  natDigitsAux_length_le (n + 1) n k hn hk

theorem natDigitsAux_digit (fuel : Nat) : ∀ n : Nat, ∀ c ∈ natDigitsAux fuel n,
    c.isDigit = true := by
  induction fuel with
  | zero =>
    intro n c hc
    simp [natDigitsAux] at hc
  | succ fuel ih =>
    intro n c hc
    rw [natDigitsAux] at hc
    by_cases h : n < 10
    · rw [if_pos h] at hc
      simp only [List.mem_singleton] at hc
      subst hc
      interval_cases n <;> decide
    · rw [if_neg h] at hc
      rw [List.mem_append] at hc
      rcases hc with hc | hc
      · exact ih (n / 10) c hc
      · simp only [List.mem_singleton] at hc
        subst hc
        have h10 : n % 10 < 10 := Nat.mod_lt _ (by omega)
        interval_cases h2 : n % 10 <;> decide

theorem natDigits_digit (n : Nat) : ∀ c ∈ natDigits n, c.isDigit = true :=
  natDigitsAux_digit (n + 1) n

theorem length_mk (l : List Char) : (String.mk l).length = l.length := rfl

theorem padStartStr_length (s : String) (len : Nat) (c : Char)
    (h : s.data.length ≤ len) : (padStartStr s len c).length = len := by
  rw [padStartStr, length_mk]
  simp only [List.length_append, List.length_replicate]
  omega

theorem padStartStr_digit (s : String) (len : Nat)
    (hs : ∀ c ∈ s.data, c.isDigit = true) :
    ∀ c ∈ (padStartStr s len '0').data, c.isDigit = true := by
  intro c hc
  rw [padStartStr, data_mk, List.mem_append] at hc
  rcases hc with hc | hc
  · have := List.eq_of_mem_replicate hc
    subst this
    decide
  · exact hs c hc

theorem jsNatToString_length_le (n bound k : Nat) (hb : bound = 10 ^ k) (h1 : 1 ≤ k)
    (hn : n < bound) : (jsNatToString n).data.length ≤ k := by
  subst hb
  exact natDigits_length_le k n hn h1

theorem dateYYYYMMDD_length (y m d : Nat) (hy : y < 10000) (hm : m < 100) (hd : d < 100) :
    (dateYYYYMMDD y m d).length = 8 := by
  rw [dateYYYYMMDD]
  rw [String.length_append, String.length_append]
  rw [padStartStr_length _ _ _ (jsNatToString_length_le y 10000 4 (by norm_num) (by omega) hy)]
  rw [padStartStr_length _ _ _ (jsNatToString_length_le m 100 2 (by norm_num) (by omega) hm)]
  rw [padStartStr_length _ _ _ (jsNatToString_length_le d 100 2 (by norm_num) (by omega) hd)]

theorem data_append (a b : String) : (a ++ b).data = a.data ++ b.data := by
  cases a
  cases b
  rfl

theorem dateYYYYMMDD_digit (y m d : Nat) :
    ∀ c ∈ (dateYYYYMMDD y m d).data, c.isDigit = true := by
  intro c hc
  rw [dateYYYYMMDD, data_append, data_append, List.mem_append, List.mem_append] at hc
  rcases hc with (hc | hc) | hc
  · exact padStartStr_digit _ _ (fun c h => natDigits_digit y c h) c hc
  · exact padStartStr_digit _ _ (fun c h => natDigits_digit m c h) c hc
  · exact padStartStr_digit _ _ (fun c h => natDigits_digit d c h) c hc

theorem find?_replaceTicket (l : List Ticket) (i : String) (t t' : Ticket)
    (hf : l.find? (fun x => x.id == i) = some t) (hid : t'.id = t.id) :
    (replaceTicket l t').find? (fun x => x.id == i) = some t' := by
  induction l with
  | nil => simp at hf
  | cons a l ih =>
    have hti : t.id = i := by
      have hp := List.find?_some hf
      exact eq_of_beq hp
    by_cases ha : a.id = i
    · rw [List.find?_cons_of_pos _ (by simp [ha])] at hf
      have hat : a = t := by injection hf
      subst hat
      rw [replaceTicket]
      simp only [List.map_cons]
      rw [if_pos (by rw [hid])]
      apply List.find?_cons_of_pos
      simp [hid, hti]
    · rw [List.find?_cons_of_neg _ (by simp [ha])] at hf
      have hstep := ih hf
      rw [replaceTicket] at hstep ⊢
      simp only [List.map_cons]
      rw [if_neg (by rw [hid, hti]; exact fun hcon => ha hcon)]
      rw [List.find?_cons_of_neg _ (by simp [ha])]
      exact hstep

/-- C2: for every event, after every successful booking and after every
successful cancellation, availableSeats plus soldSeats equals totalSeats,
given that the equality held before the operation: both operations change the
two counters by opposite unit increments. -/
theorem c2_seat_invariant :
    (∀ (events : List Event) (tickets : List Ticket) (user : UserRec)
      (eventId seatNumber : String) (aInfo : Option AttendeeInfo) (pm : String)
      (sec row : Option String) (env : BookEnv) (e ev' : Event) (t : Ticket),
      findEvent events eventId = some e →
      e.capacity.availableSeats + e.capacity.soldSeats = e.capacity.totalSeats →
      bookTicket events tickets user eventId seatNumber aInfo pm sec row env
        = Except.ok (ev', t) →
      ev'.capacity.availableSeats + ev'.capacity.soldSeats = ev'.capacity.totalSeats)
    ∧ (∀ (events : List Event) (tickets : List Ticket) (ticketId : String)
      (actor : UserRec) (now : Int) (e ev' : Event) (t t' : Ticket),
      findTicket tickets ticketId = some t →
      findEvent events t.event = some e →
      e.capacity.availableSeats + e.capacity.soldSeats = e.capacity.totalSeats →
      cancelTicket events tickets ticketId actor now = Except.ok (ev', t') →
      ev'.capacity.availableSeats + ev'.capacity.soldSeats = ev'.capacity.totalSeats) := by
  constructor
  · intro events tickets user eventId seatNumber aInfo pm sec row env e ev' t hfe hinv hok
    rw [bookTicket.eq_def, hfe] at hok
    simp only [ne_eq] at hok
    split at hok
    · exact absurd hok (by simp)
    · split at hok
      · exact absurd hok (by simp)
      · split at hok
        · exact absurd hok (by simp)
        · split at hok
          · exact absurd hok (by simp)
          · split at hok
            · exact absurd hok (by simp)
            · simp only [Except.ok.injEq, Prod.mk.injEq] at hok
              obtain ⟨hev, _⟩ := hok
              subst hev
              dsimp only
              omega
  · intro events tickets ticketId actor now e ev' t t' hft hfe hinv hok
    rw [cancelTicket.eq_def, hft] at hok
    simp only [ne_eq, hfe] at hok
    split at hok
    · exact absurd hok (by simp)
    · split at hok
      · exact absurd hok (by simp)
      · split at hok
        · exact absurd hok (by simp)
        · simp only [Except.ok.injEq, Prod.mk.injEq] at hok
          obtain ⟨hev, _⟩ := hok
          subst hev
          dsimp only
          omega

/-- Witness for C2 at a concrete booking and a concrete cancellation. -/
theorem c2_witness :
    bookedPairA.1.capacity.availableSeats + bookedPairA.1.capacity.soldSeats
        = bookedPairA.1.capacity.totalSeats
    ∧ cancelledPairA.1.capacity.availableSeats + cancelledPairA.1.capacity.soldSeats
        = cancelledPairA.1.capacity.totalSeats := by
  constructor
  · exact c2_seat_invariant.1 [evA] [] userA "e1" "A1" none "card" none none envA evA
      bookedPairA.1 bookedPairA.2 (by decide) (by decide) (by decide)
  · exact c2_seat_invariant.2 [evA] [ticketA] "t1" userA 100000000000 evA
      cancelledPairA.1 ticketA cancelledPairA.2 (by decide) (by decide) (by decide)
      (by decide)

/-- C9 counterexample: the event schema is declared with the timestamps
option, so the findByIdAndUpdate that commits the seat counters also writes
the updatedAt field of the event: at the concrete booking and cancellation
below, updatedAt changes from 1 to the operation time, so a third event
field is written and the claim as stated is false. -/
theorem c9_counterexample :
    bookedPairA.1.updatedAt = 100000000000
    ∧ evA.updatedAt = 1
    ∧ bookedPairA.1.updatedAt ≠ evA.updatedAt
    ∧ cancelledPairA.1.updatedAt ≠ evA.updatedAt := by
  refine ⟨by decide, by decide, by decide, by decide⟩

/-- C9 amended: a successful booking and a successful cancellation write only
the two capacity counters of the event together with the automatically
managed updatedAt timestamp that the timestamps option adds to every
findByIdAndUpdate; status, dateTime, pricing, totalSeats and every other
event field are unchanged, and updatedAt is set to the operation time. -/
theorem c9_event_frame_amended :
    (∀ (events : List Event) (tickets : List Ticket) (user : UserRec)
      (eventId seatNumber : String) (aInfo : Option AttendeeInfo) (pm : String)
      (sec row : Option String) (env : BookEnv) (e ev' : Event) (t : Ticket),
      findEvent events eventId = some e →
      bookTicket events tickets user eventId seatNumber aInfo pm sec row env
        = Except.ok (ev', t) →
      ev'.id = e.id ∧ ev'.organizer = e.organizer ∧ ev'.status = e.status
        ∧ ev'.dateTime = e.dateTime ∧ ev'.pricing = e.pricing
        ∧ ev'.capacity.totalSeats = e.capacity.totalSeats ∧ ev'.rest = e.rest
        ∧ ev'.updatedAt = env.now)
    ∧ (∀ (events : List Event) (tickets : List Ticket) (ticketId : String)
      (actor : UserRec) (now : Int) (e ev' : Event) (t t' : Ticket),
      findTicket tickets ticketId = some t →
      findEvent events t.event = some e →
      cancelTicket events tickets ticketId actor now = Except.ok (ev', t') →
      ev'.id = e.id ∧ ev'.organizer = e.organizer ∧ ev'.status = e.status
        ∧ ev'.dateTime = e.dateTime ∧ ev'.pricing = e.pricing
        ∧ ev'.capacity.totalSeats = e.capacity.totalSeats ∧ ev'.rest = e.rest
        ∧ ev'.updatedAt = now) := by
  constructor
  · intro events tickets user eventId seatNumber aInfo pm sec row env e ev' t hfe hok
    rw [bookTicket.eq_def, hfe] at hok
    simp only [ne_eq] at hok
    split at hok
    · exact absurd hok (by simp)
    · split at hok
      · exact absurd hok (by simp)
      · split at hok
        · exact absurd hok (by simp)
        · split at hok
          · exact absurd hok (by simp)
          · split at hok
            · exact absurd hok (by simp)
            · simp only [Except.ok.injEq, Prod.mk.injEq] at hok
              obtain ⟨hev, _⟩ := hok
              subst hev
              exact ⟨rfl, rfl, rfl, rfl, rfl, rfl, rfl, rfl⟩
  · intro events tickets ticketId actor now e ev' t t' hft hfe hok
    rw [cancelTicket.eq_def, hft] at hok
    simp only [ne_eq, hfe] at hok
    split at hok
    · exact absurd hok (by simp)
    · split at hok
      · exact absurd hok (by simp)
      · split at hok
        · exact absurd hok (by simp)
        · simp only [Except.ok.injEq, Prod.mk.injEq] at hok
          obtain ⟨hev, _⟩ := hok
          subst hev
          exact ⟨rfl, rfl, rfl, rfl, rfl, rfl, rfl, rfl⟩

/-- Witness for the amended C9 at a concrete booking and a concrete
cancellation. -/
theorem c9_amended_witness :
    (bookedPairA.1.status = evA.status ∧ bookedPairA.1.dateTime = evA.dateTime
      ∧ bookedPairA.1.pricing = evA.pricing
      ∧ bookedPairA.1.capacity.totalSeats = evA.capacity.totalSeats
      ∧ bookedPairA.1.updatedAt = envA.now)
    ∧ (cancelledPairA.1.status = evA.status ∧ cancelledPairA.1.dateTime = evA.dateTime
      ∧ cancelledPairA.1.pricing = evA.pricing
      ∧ cancelledPairA.1.capacity.totalSeats = evA.capacity.totalSeats
      ∧ cancelledPairA.1.updatedAt = 100000000000) := by
  constructor
  · have h := c9_event_frame_amended.1 [evA] [] userA "e1" "A1" none "card" none none envA
      evA bookedPairA.1 bookedPairA.2 (by decide) (by decide)
    exact ⟨h.2.2.1, h.2.2.2.1, h.2.2.2.2.1, h.2.2.2.2.2.1, h.2.2.2.2.2.2.2⟩
  · have h := c9_event_frame_amended.2 [evA] [ticketA] "t1" userA 100000000000 evA
      cancelledPairA.1 ticketA cancelledPairA.2 (by decide) (by decide) (by decide)
    exact ⟨h.2.2.1, h.2.2.2.1, h.2.2.2.2.1, h.2.2.2.2.2.1, h.2.2.2.2.2.2.2⟩

/-- C3: the claim says a ticket created without an explicit validUntil gets
validUntil equal to twenty four hours after the event end time; the code of
the validUntil pre save hook instead uses the creation time, contradicting
its own comment.  At the concrete booking below the event ends at time
200003600000 but the persisted validUntil is the booking time 100000000000
plus twenty four hours, not the event end plus twenty four hours. -/
theorem c3_validUntil_uses_now_not_event_end :
    bookedPairA.2.validUntil = some (100000000000 + 24 * 60 * 60 * 1000)
    ∧ evA.dateTime.endTime = 200003600000
    ∧ (100000000000 : Int) + 24 * 60 * 60 * 1000 ≠ 200003600000 + 24 * 60 * 60 * 1000
    ∧ defaultValidUntil true none true 100000000000 = some 100086400000 := by
  refine ⟨by decide, by decide, by decide, by decide⟩

/-- C6 counterexample: a published event that is sold out and whose start
time is already past is rejected with the sold out error, not with an event
not bookable error: the seat availability check runs before the past start
check, so the claimed error precedence is false. -/
theorem c6_counterexample :
    bookTicket [evSoldOutPast] [] userA "e1" "A1" none "card" none none envA
        = Except.error ApiErr.soldOut
    ∧ ¬ isEventNotBookableError ApiErr.soldOut := by
  constructor
  · decide
  · intro h
    rcases h with h | h <;> exact absurd h (by decide)

/-- C6 amended: the booking guards run in source order: an unpublished event
fails with the event not bookable error before any seat check; for a
published event the sold out check runs before the past start check, so a
sold out event with a past start fails with the sold out error; the past
start check runs next, and the seat taken check runs only when the event is
published, has seats, and has not started. -/
theorem c6_booking_guard_order (events : List Event) (tickets : List Ticket)
    (user : UserRec) (eventId seatNumber : String) (aInfo : Option AttendeeInfo)
    (pm : String) (sec row : Option String) (env : BookEnv) (e : Event)
    (hfe : findEvent events eventId = some e) :
    (e.status ≠ EventStatus.published →
      bookTicket events tickets user eventId seatNumber aInfo pm sec row env
        = Except.error ApiErr.eventNotBookable)
    ∧ (e.status = EventStatus.published → e.capacity.availableSeats ≤ 0 →
      bookTicket events tickets user eventId seatNumber aInfo pm sec row env
        = Except.error ApiErr.soldOut)
    ∧ (e.status = EventStatus.published → 0 < e.capacity.availableSeats →
      e.dateTime.start < env.now →
      bookTicket events tickets user eventId seatNumber aInfo pm sec row env
        = Except.error ApiErr.pastEvent)
    ∧ (e.status = EventStatus.published → 0 < e.capacity.availableSeats →
      ¬ e.dateTime.start < env.now →
      (tickets.any fun t => t.event == eventId && t.seatInfo.seatNumber == seatNumber
        && (t.status == TicketStatus.active || t.status == TicketStatus.used)) = true →
      bookTicket events tickets user eventId seatNumber aInfo pm sec row env
        = Except.error ApiErr.seatTaken) := by
  refine ⟨?_, ?_, ?_, ?_⟩
  · intro h1
    rw [bookTicket.eq_def, hfe]
    simp only [ne_eq]
    rw [if_pos h1]
  · intro h1 h2
    rw [bookTicket.eq_def, hfe]
    simp only [ne_eq]
    rw [if_neg (show ¬¬(e.status = EventStatus.published) by simp [h1]),
      if_pos h2]
  · intro h1 h2 h3
    rw [bookTicket.eq_def, hfe]
    simp only [ne_eq]
    rw [if_neg (show ¬¬(e.status = EventStatus.published) by simp [h1]),
      if_neg (show ¬(e.capacity.availableSeats ≤ 0) by omega),
      if_pos h3]
  · intro h1 h2 h3 h4
    rw [bookTicket.eq_def, hfe]
    simp only [ne_eq]
    rw [if_neg (show ¬¬(e.status = EventStatus.published) by simp [h1]),
      if_neg (show ¬(e.capacity.availableSeats ≤ 0) by omega),
      if_neg h3, if_pos h4]

/-- Witness for the amended C6 at the concrete sold out past event. -/
theorem c6_witness :
    bookTicket [evSoldOutPast] [] userA "e1" "A1" none "card" none none envA
      = Except.error ApiErr.soldOut :=
  (c6_booking_guard_order [evSoldOutPast] [] userA "e1" "A1" none "card" none none envA
    evSoldOutPast (by decide)).2.1 (by decide) (by decide)


/-- C4: every generated ticket number has the exact form of the EVT prefix,
the eight digit UTC date, and a five digit zero padded random suffix; on a
collision the suffix is regenerated exactly once from the second draw; a
collision persisting after the retry is rejected by the unique index at
insert time instead of persisting a duplicate, and a fresh number inserts
cleanly. -/
theorem c4_ticket_number_scheme (existing : List String) (y m d r1 r2 : Nat)
    (hy : y < 10000) (hm : m < 100) (hd : d < 100) (h1 : r1 < 99999) (h2 : r2 < 99999) :
    (∃ suf : String,
      generateTicketNumber existing (dateYYYYMMDD y m d) r1 r2
          = "EVT-" ++ dateYYYYMMDD y m d ++ "-" ++ suf
        ∧ suf.length = 5 ∧ (∀ c ∈ suf.data, c.isDigit = true))
    ∧ (dateYYYYMMDD y m d).length = 8
    ∧ (∀ c ∈ (dateYYYYMMDD y m d).data, c.isDigit = true)
    ∧ (mkTicketNumber (dateYYYYMMDD y m d) r1 ∉ existing →
        generateTicketNumber existing (dateYYYYMMDD y m d) r1 r2
          = mkTicketNumber (dateYYYYMMDD y m d) r1)
    ∧ (mkTicketNumber (dateYYYYMMDD y m d) r1 ∈ existing →
        generateTicketNumber existing (dateYYYYMMDD y m d) r1 r2
          = mkTicketNumber (dateYYYYMMDD y m d) r2)
    ∧ (generateTicketNumber existing (dateYYYYMMDD y m d) r1 r2 ∈ existing →
        insertTicketNumber existing (generateTicketNumber existing (dateYYYYMMDD y m d) r1 r2)
          = Except.error "E11000 duplicate key error")
    ∧ (generateTicketNumber existing (dateYYYYMMDD y m d) r1 r2 ∉ existing →
        insertTicketNumber existing (generateTicketNumber existing (dateYYYYMMDD y m d) r1 r2)
          = Except.ok (generateTicketNumber existing (dateYYYYMMDD y m d) r1 r2 :: existing)) := by
  have hs1 : (padStartStr (jsNatToString r1) 5 '0').length = 5 :=
    padStartStr_length _ _ _ (jsNatToString_length_le r1 100000 5 (by norm_num) (by omega)
      (by omega))
  have hs2 : (padStartStr (jsNatToString r2) 5 '0').length = 5 :=
    padStartStr_length _ _ _ (jsNatToString_length_le r2 100000 5 (by norm_num) (by omega)
      (by omega))
  have hd1 : ∀ c ∈ (padStartStr (jsNatToString r1) 5 '0').data, c.isDigit = true :=
    padStartStr_digit _ _ (fun c h => natDigits_digit r1 c h)
  have hd2 : ∀ c ∈ (padStartStr (jsNatToString r2) 5 '0').data, c.isDigit = true :=
    padStartStr_digit _ _ (fun c h => natDigits_digit r2 c h)
  refine ⟨?_, dateYYYYMMDD_length y m d hy hm hd, dateYYYYMMDD_digit y m d, ?_, ?_, ?_, ?_⟩
  · by_cases hmem : mkTicketNumber (dateYYYYMMDD y m d) r1 ∈ existing
    · refine ⟨padStartStr (jsNatToString r2) 5 '0', ?_, hs2, hd2⟩
      rw [generateTicketNumber, if_pos hmem, mkTicketNumber]
    · refine ⟨padStartStr (jsNatToString r1) 5 '0', ?_, hs1, hd1⟩
      rw [generateTicketNumber, if_neg hmem, mkTicketNumber]
  · intro hmem
    rw [generateTicketNumber, if_neg hmem]
  · intro hmem
    rw [generateTicketNumber, if_pos hmem]
  · intro hmem
    rw [insertTicketNumber, if_pos hmem]
  · intro hmem
    rw [insertTicketNumber, if_neg hmem]

/-- Witness for C4 at a concrete collision: the first draw collides with the
one existing number and the second draw is used. -/
theorem c4_witness :
    (∃ suf : String,
      generateTicketNumber ["EVT-20251011-00042"] (dateYYYYMMDD 2025 10 11) 42 7
          = "EVT-" ++ dateYYYYMMDD 2025 10 11 ++ "-" ++ suf
        ∧ suf.length = 5 ∧ (∀ c ∈ suf.data, c.isDigit = true))
    ∧ (dateYYYYMMDD 2025 10 11).length = 8 := by
  have h := c4_ticket_number_scheme ["EVT-20251011-00042"] 2025 10 11 42 7
    (by omega) (by omega) (by omega) (by omega) (by omega)
  exact ⟨h.1, h.2.1⟩

/-- C5: for an active ticket whose actor is the owner or an admin, a
cancellation requested less than twenty four hours before the event start
always fails with the cancellation window error and leaves the store
unchanged; a cancellation requested at least twenty four hours before the
start always succeeds, marks the ticket cancelled with the payment refunded,
and moves exactly one seat from soldSeats back to availableSeats. -/
theorem c5_cancellation_window (st : Store) (tid : String) (actor : UserRec) (now : Int)
    (t : Ticket) (ev : Event)
    (hft : findTicket st.tickets tid = some t)
    (hact : t.status = TicketStatus.active)
    (hown : t.user = actor.id ∨ actor.role = "admin")
    (hfe : findEvent st.events t.event = some ev) :
    (ev.dateTime.start - now < 24 * (1000 * 60 * 60) →
      cancelTicketStore st tid actor now = (st, some ApiErr.windowClosed))
    ∧ (24 * (1000 * 60 * 60) ≤ ev.dateTime.start - now →
      ∃ ev' t', cancelTicket st.events st.tickets tid actor now = Except.ok (ev', t')
        ∧ t'.status = TicketStatus.cancelled
        ∧ t'.payment.paymentStatus = PaymentStatus.refunded
        ∧ t'.payment.refundedAt = some now
        ∧ ev'.capacity.availableSeats = ev.capacity.availableSeats + 1
        ∧ ev'.capacity.soldSeats = ev.capacity.soldSeats - 1
        ∧ ev'.capacity.totalSeats = ev.capacity.totalSeats) := by
  have hog : ¬ (¬ t.user = actor.id ∧ ¬ actor.role = "admin") := by
    rcases hown with h | h
    · intro hc
      exact hc.1 h
    · intro hc
      exact hc.2 h
  have hcc : cancelTicket st.events st.tickets tid actor now
      = if ev.dateTime.start - now < 24 * (1000 * 60 * 60) then
          Except.error ApiErr.windowClosed
        else
          Except.ok
            ({ ev with
               capacity :=
                 { ev.capacity with
                   soldSeats := ev.capacity.soldSeats - 1
                   availableSeats := ev.capacity.availableSeats + 1 },
               updatedAt := now },
             { t with
               status := TicketStatus.cancelled,
               payment := { t.payment with
                            paymentStatus := PaymentStatus.refunded,
                            refundedAt := some now } }) := by
    rw [cancelTicket.eq_def, hft]
    simp only [ne_eq, hfe]
    rw [if_neg hog, if_neg (show ¬¬(t.status = TicketStatus.active) by simp [hact])]
  constructor
  · intro hw
    rw [cancelTicketStore.eq_def, hcc, if_pos hw]
  · intro hw
    refine ⟨{ ev with
        capacity :=
          { ev.capacity with
            soldSeats := ev.capacity.soldSeats - 1
            availableSeats := ev.capacity.availableSeats + 1 },
        updatedAt := now },
      { t with
        status := TicketStatus.cancelled,
        payment := { t.payment with
                     paymentStatus := PaymentStatus.refunded,
                     refundedAt := some now } },
      ?_, rfl, rfl, rfl, rfl, rfl, rfl⟩
    rw [hcc, if_neg (by omega)]

/-- Witness for C5 at the concrete store: the cancellation is requested well
before the window closes and succeeds. -/
theorem c5_witness :
    ∃ ev' t', cancelTicket storeA.events storeA.tickets "t1" userA 100000000000
        = Except.ok (ev', t')
      ∧ t'.status = TicketStatus.cancelled
      ∧ t'.payment.paymentStatus = PaymentStatus.refunded := by
  have h := c5_cancellation_window storeA "t1" userA 100000000000 ticketA evA
    (by decide) (by decide) (Or.inl (by decide)) (by decide)
  obtain ⟨ev', t', hok, h1, h2, _⟩ := h.2 (by decide)
  exact ⟨ev', t', hok, h1, h2⟩

theorem checkInTicket_run (events : List Event) (tickets : List Ticket) (cred : String)
    (gate : Option String) (actorId : String) (now : Int)
    (obj : List (String × String)) (tid : String) (t : Ticket) (e : Event)
    (hparse : jsonParseFlat cred = some obj)
    (htid : jsGet obj "ticketId" = some tid)
    (hfind : findTicket tickets tid = some t)
    (hact : t.status = TicketStatus.active)
    (hnotin : t.checkIn.isCheckedIn = false)
    (hev : findEvent events t.event = some e)
    (hpub : e.status = EventStatus.published) :
    checkInTicket events tickets cred gate actorId now
      = Except.ok (checkedInTicket t gate actorId now) := by
  rw [checkInTicket.eq_def, hparse]
  simp only [htid, hfind, ne_eq, hev, hact, hnotin, hpub]
  simp

/-- C1 counterexample: at the concrete store a first check in succeeds, and
the second check in with the same credential fails with the ticket not active
error rather than the already checked in error, because check in sets the
ticket status to used and the status guard runs before the guard on the
checked in flag. -/
theorem c1_counterexample :
    (checkInStore storeA credA none "staff" 5).2 = none
    ∧ (checkInStore (checkInStore storeA credA none "staff" 5).1 credA none "staff" 6).2
        = some ApiErr.ticketNotActive
    ∧ ApiErr.ticketNotActive ≠ ApiErr.alreadyCheckedIn := by
  refine ⟨by decide, by decide, by decide⟩

/-- C1 amended: check in of the same credential succeeds exactly once: the
first call succeeds and records the checked in flag, and the second call
fails, with the ticket not active error, leaving the store unchanged; the
already checked in error is unreachable on this path because check in also
moves the status to used and the status guard runs first. -/
theorem c1_checkin_idempotent_amended (st : Store) (cred : String) (g1 g2 : Option String)
    (a1 a2 : String) (n1 n2 : Int) (obj : List (String × String)) (tid : String)
    (t : Ticket) (e : Event)
    (hparse : jsonParseFlat cred = some obj)
    (htid : jsGet obj "ticketId" = some tid)
    (hfind : findTicket st.tickets tid = some t)
    (hact : t.status = TicketStatus.active)
    (hnotin : t.checkIn.isCheckedIn = false)
    (hev : findEvent st.events t.event = some e)
    (hpub : e.status = EventStatus.published) :
    (checkInStore st cred g1 a1 n1).2 = none
    ∧ (∃ t1, findTicket (checkInStore st cred g1 a1 n1).1.tickets tid = some t1
        ∧ t1.checkIn.isCheckedIn = true ∧ t1.status = TicketStatus.used)
    ∧ checkInStore (checkInStore st cred g1 a1 n1).1 cred g2 a2 n2
        = ((checkInStore st cred g1 a1 n1).1, some ApiErr.ticketNotActive) := by
  have hrun := checkInTicket_run st.events st.tickets cred g1 a1 n1 obj tid t e
    hparse htid hfind hact hnotin hev hpub
  have hstore1 : checkInStore st cred g1 a1 n1
      = ({ st with tickets := replaceTicket st.tickets (checkedInTicket t g1 a1 n1) },
         none) := by
    rw [checkInStore.eq_def, hrun]
  have hfind1 : findTicket (replaceTicket st.tickets (checkedInTicket t g1 a1 n1)) tid
      = some (checkedInTicket t g1 a1 n1) :=
    find?_replaceTicket st.tickets tid t _ hfind rfl
  have hrun2 : checkInTicket st.events
      (replaceTicket st.tickets (checkedInTicket t g1 a1 n1)) cred g2 a2 n2
      = Except.error ApiErr.ticketNotActive := by
    rw [checkInTicket.eq_def, hparse]
    simp only [htid, hfind1]
    simp [checkedInTicket]
  refine ⟨?_, ?_, ?_⟩
  · rw [hstore1]
  · exact ⟨checkedInTicket t g1 a1 n1, by rw [hstore1]; exact hfind1, rfl, rfl⟩
  · rw [hstore1]
    rw [checkInStore.eq_def]
    simp only [hrun2]

/-- Witness for the amended C1 at the concrete store. -/
theorem c1_witness :
    ∃ t1, findTicket (checkInStore storeA credA none "staff" 5).1.tickets "t1" = some t1
      ∧ t1.checkIn.isCheckedIn = true ∧ t1.status = TicketStatus.used :=
  (c1_checkin_idempotent_amended storeA credA none none "staff" "staff2" 5 6
    [("ticketId", "t1")] "t1" ticketA evA (by decide) (by decide) (by decide) (by decide)
    (by decide) (by decide) (by decide)).2.1

/-- C10 counterexample: a check in request that supplies the empty string as
the gate label records the default Main Gate, not the supplied label, because
the gate expression uses JavaScript truthiness. -/
theorem c10_counterexample :
    (checkInTicket [evA] [ticketA] credA (some "") "staff" 5).map
        (fun t => t.checkIn.gate)
      = Except.ok (some "Main Gate")
    ∧ ("Main Gate" : String) ≠ "" := by
  refine ⟨by decide, by decide⟩

/-- C10 amended: on a successful check in, an absent gate label and an empty
string gate label are both recorded as Main Gate, and a nonempty supplied
gate label is recorded verbatim. -/
theorem c10_gate_default (events : List Event) (tickets : List Ticket) (cred : String)
    (gate : Option String) (actorId : String) (now : Int)
    (obj : List (String × String)) (tid : String) (t : Ticket) (e : Event)
    (hparse : jsonParseFlat cred = some obj)
    (htid : jsGet obj "ticketId" = some tid)
    (hfind : findTicket tickets tid = some t)
    (hact : t.status = TicketStatus.active)
    (hnotin : t.checkIn.isCheckedIn = false)
    (hev : findEvent events t.event = some e)
    (hpub : e.status = EventStatus.published) :
    ∃ t', checkInTicket events tickets cred gate actorId now = Except.ok t'
      ∧ ((gate = none ∨ gate = some "") → t'.checkIn.gate = some "Main Gate")
      ∧ (∀ s, gate = some s → s ≠ "" → t'.checkIn.gate = some s) := by
  refine ⟨checkedInTicket t gate actorId now,
    checkInTicket_run events tickets cred gate actorId now obj tid t e
      hparse htid hfind hact hnotin hev hpub, ?_, ?_⟩
  · intro hg
    rcases hg with hg | hg <;> subst hg <;> simp [checkedInTicket, jsOrString]
  · intro s hg hs
    subst hg
    simp [checkedInTicket, jsOrString, hs]

/-- Witness for the amended C10 at the concrete store with a nonempty gate. -/
theorem c10_witness :
    ∃ t', checkInTicket storeA.events storeA.tickets credA (some "G7") "staff" 5
        = Except.ok t' ∧ t'.checkIn.gate = some "G7" := by
  obtain ⟨t', hok, _, hv⟩ := c10_gate_default storeA.events storeA.tickets credA
    (some "G7") "staff" 5 [("ticketId", "t1")] "t1" ticketA evA (by decide) (by decide)
    (by decide) (by decide) (by decide) (by decide) (by decide)
  exact ⟨t', hok, hv "G7" rfl (by decide)⟩

/-- C7 counterexample: the claim quantifies over every payload, but the
decoder applies JavaScript truthiness to the three required fields, so a
payload whose ticketNumber is the empty string encodes and then fails to
decode as valid. -/
theorem c7_counterexample :
    validateQRCode (stringifyQRData
        { ticketId := "abc", ticketNumber := "", eventId := "e1", seatNumber := "A1",
          attendeeName := "Bob" })
      = QRResult.invalid "Missing required fields: ticketNumber" := by decide

/-- C7 amended: for every payload whose ticketId, eventId and ticketNumber
are nonempty strings, encoding the credential and decoding it again reports
valid and yields back the original ticketId, ticketNumber and eventId. -/
theorem c7_roundtrip (p : QRPayload) (h1 : p.ticketId ≠ "") (h2 : p.eventId ≠ "")
    (h3 : p.ticketNumber ≠ "") :
    validateQRCode (stringifyQRData p) = QRResult.validData (qrMembers p)
    ∧ jsGet (qrMembers p) "ticketId" = some p.ticketId
    ∧ jsGet (qrMembers p) "ticketNumber" = some p.ticketNumber
    ∧ jsGet (qrMembers p) "eventId" = some p.eventId := by
  have hparse := jsonParseFlat_stringifyQRData p
  refine ⟨?_, ?_, ?_, ?_⟩
  · rw [validateQRCode.eq_def, hparse]
    simp +decide [requiredQRFields, truthyField, jsGet, qrMembers, List.find?, h1, h2, h3]
  · simp +decide [jsGet, qrMembers, List.find?]
  · simp +decide [jsGet, qrMembers, List.find?]
  · simp +decide [jsGet, qrMembers, List.find?]

/-- Witness for the amended C7 at a concrete payload. -/
theorem c7_witness :
    validateQRCode (stringifyQRData
        { ticketId := "t9", ticketNumber := "EVT-20251011-00007", eventId := "e9",
          seatNumber := "B2", attendeeName := "Ann" })
      = QRResult.validData
          [("ticketId", "t9"), ("ticketNumber", "EVT-20251011-00007"), ("eventId", "e9"),
           ("seatNumber", "B2"), ("attendeeName", "Ann")] :=
  (c7_roundtrip
    { ticketId := "t9", ticketNumber := "EVT-20251011-00007", eventId := "e9",
      seatNumber := "B2", attendeeName := "Ann" }
    (by decide) (by decide) (by decide)).1

/-- C8 counterexample: a well formed credential that carries only a ticketId
and lacks both eventId and ticketNumber is not rejected as a malformed
credential at check in; it checks in successfully, because checkInTicket only
guards against JSON parse failure and never validates the payload fields. -/
theorem c8_counterexample :
    (checkInTicket [evA] [ticketA] credA none "staff" 5).map (fun t => t.status)
      = Except.ok TicketStatus.used
    ∧ checkInTicket [evA] [ticketA] credA none "staff" 5
        ≠ Except.error ApiErr.malformedCredential := by
  constructor
  · decide
  · decide

/-- C8 amended: at check in only a JSON parse failure is rejected as a
malformed credential; a parsed payload with no ticketId property leads to the
ticket lookup failing with the ticket not found error, not a malformed
credential error; the full missing field validation lives only in
validateQRCode, which rejects such a payload as invalid. -/
theorem c8_credential_validation :
    (∀ (events : List Event) (tickets : List Ticket) (s : String) (g : Option String)
      (a : String) (n : Int), jsonParseFlat s = none →
      checkInTicket events tickets s g a n = Except.error ApiErr.malformedCredential)
    ∧ (∀ (events : List Event) (tickets : List Ticket) (s : String) (g : Option String)
      (a : String) (n : Int) (obj : List (String × String)),
      jsonParseFlat s = some obj → jsGet obj "ticketId" = none →
      checkInTicket events tickets s g a n = Except.error ApiErr.ticketNotFound)
    ∧ (∀ (s : String) (obj : List (String × String)),
      jsonParseFlat s = some obj → jsGet obj "ticketId" = none →
      ∃ msg, validateQRCode s = QRResult.invalid msg) := by
  refine ⟨?_, ?_, ?_⟩
  · intro events tickets s g a n hp
    rw [checkInTicket.eq_def, hp]
  · intro events tickets s g a n obj hp htid
    rw [checkInTicket.eq_def, hp]
    simp only [htid]
  · intro s obj hp htid
    rw [validateQRCode.eq_def, hp]
    simp only [requiredQRFields, truthyField, htid, List.filter, Bool.not_false]
    rw [if_neg (by simp)]
    exact ⟨_, rfl⟩

/-- Witness for the amended C8: a syntactically bad string is rejected as
malformed, and a parsed payload without ticketId is rejected as ticket not
found by check in and as invalid by validateQRCode. -/
theorem c8_witness :
    checkInTicket [evA] [ticketA] "bad" none "staff" 5
        = Except.error ApiErr.malformedCredential
    ∧ checkInTicket [evA] [ticketA] "\x7b\"a\":\"b\"\x7d" none "staff" 5
        = Except.error ApiErr.ticketNotFound
    ∧ ∃ msg, validateQRCode "\x7b\"a\":\"b\"\x7d" = QRResult.invalid msg := by
  refine ⟨?_, ?_, ?_⟩
  · exact c8_credential_validation.1 [evA] [ticketA] "bad" none "staff" 5 (by decide)
  · exact c8_credential_validation.2.1 [evA] [ticketA] "\x7b\"a\":\"b\"\x7d" none "staff" 5
      [("a", "b")] (by decide) (by decide)
  · exact c8_credential_validation.2.2 "\x7b\"a\":\"b\"\x7d" [("a", "b")]
      (by decide) (by decide)

end EMS
